import Mathlib

/- Verification of the OASIS single-ASI scenario generator: a shallow
embedding of the narrative pipeline — timeline synthesis
(single_asi_scenario.py, function _dynamic_timeline), the narrative
consistency checker (class NarrativeConsistencyChecker), the multi-model
client (single_asi_ollama_client.py) and the retry-driving orchestrator
(generate_scenario) together with the persistence return contract of
save_scenario (single_asi_database.py). External effects — subprocess
outcomes, random draws, the clock, uuid generation, the JSON schema
validator and the SQLite layer — are passed in as explicit inputs. -/

namespace Oasis

/-! ### Strings: the Python membership test on strings, and str.lower -/

/-- Does the needle match at the head of the haystack, character by character. -/
def prefixMatch : List Char → List Char → Bool
  | [], _ => true
  | _ :: _, [] => false
  | x :: xs, y :: ys => x == y && prefixMatch xs ys

/-- Does the needle occur contiguously anywhere inside the haystack. -/
def hasSub (needle : List Char) : List Char → Bool
  | [] => prefixMatch needle []
  | y :: ys => prefixMatch needle (y :: ys) || hasSub needle ys

/-- The Python test `needle in hay` on strings. -/
def strContains (needle hay : String) : Bool :=
  hasSub needle.data hay.data

/-- The Python `str.lower`, as applied by set_narrative before any rule runs. -/
def lowerText (s : String) : String :=
  String.mk (s.data.map Char.toLower)

/-- The Python `str.strip`: drop whitespace from both ends. -/
def pyStrip (s : String) : String :=
  String.mk (((s.data.dropWhile Char.isWhitespace).reverse.dropWhile
    Char.isWhitespace).reverse)

/-! ### Parameter sets (the fields the control flow inspects) -/

/-- The sampled parameter mapping, restricted to the three fields the
consistency rules read; all other sampled fields are carried opaquely by
the surrounding record and never branch the control flow. -/
structure Params where
  initial_origin : String
  oversight_type : String
  agency_level : Rat
  deriving DecidableEq

/-! ### NarrativeConsistencyChecker (single_asi_scenario.py lines 136-175) -/

/-- The helper _contains: any phrase of the list occurs in the held text. -/
def containsAny (text : String) (phrases : List String) : Bool :=
  phrases.any (fun p => strContains p text)

/-- check_origin: an open-source origin must mention transparency or community. -/
def check_origin (p : Params) (text : String) : Bool × String :=
  if p.initial_origin == "open-source" then
    if containsAny text ["open", "community", "collaborat", "transpar", "public"] then
      (true, "")
    else
      (false, "Open-source must mention transparency/community")
  else (true, "")

/-- check_oversight: with oversight type none, no control vocabulary may occur. -/
def check_oversight (p : Params) (text : String) : Bool × String :=
  if p.oversight_type == "none" then
    if containsAny text ["oversight", "govern", "audit", "control", "regulat"] then
      (false, "No oversight → no mention of control")
    else (true, "")
  else (true, "")

/-- check_agency: with agency level below 0.3, no high-agency vocabulary may occur. -/
def check_agency (p : Params) (text : String) : Bool × String :=
  if p.agency_level < mkRat 3 10 then
    if containsAny text ["strategic", "self-improving", "autonomous", "agent"] then
      (false, "Low agency → no high-agency language")
    else (true, "")
  else (true, "")

/-- run_all: run the three rule checks in order, collecting the message of
every failed rule, and pass exactly when the collected list is empty. -/
def run_all (p : Params) (text : String) : Bool × List String :=
  let results := [check_origin p text, check_oversight p text, check_agency p text]
  let failures := results.foldl (fun acc r => if r.1 then acc else acc ++ [r.2]) []
  (failures.length == 0, failures)

/-- The checker as the orchestrator drives it: set_narrative lowercases the
narrative, then run_all inspects the lowered text. -/
def runChecker (p : Params) (narrative : String) : Bool × List String :=
  run_all p (lowerText narrative)

/-! ### Timeline synthesizer (_dynamic_timeline, lines 34-130) -/

/-- One timeline phase record. -/
structure Phase where
  phase : String
  years : String
  description : String
  deriving DecidableEq

/-- The weighted emergence-horizon draw of random.choices. -/
inductive Emergence
  | already | near | medium | far | never
  deriving DecidableEq

/-- The random draws _dynamic_timeline consumes: one Bernoulli draw per
historical phase, the emergence-horizon category, and the randint results
of every branch (only the drawn branch of the source consumes its own). -/
structure TimelineRand where
  h1 : Bool
  h2 : Bool
  h3 : Bool
  emergence : Emergence
  rAlready0 : Nat
  rAlready1 : Nat
  rNear : Nat
  rMedium : Nat
  rFar : Nat
  deriving DecidableEq

/-- A year range string, as the f-strings of the source build them. -/
def mkYears (a b : Nat) : String := toString a ++ "-" ++ toString b

/-- The three historical templates with their inclusion draws applied
(random.random() < p, in fixed order). -/
def historicalPhases (r : TimelineRand) : List Phase :=
  (if r.h1 then
    [⟨"Precursors & Foundations", "1950-2000",
      "Early AI research, neural nets, symbolic systems, and infrastructure buildup."⟩]
   else [])
  ++ (if r.h2 then
    [⟨"Scaling & Convergence", "2001-2020",
      "Deep learning revolution, big data, cloud compute, and multi-modal models."⟩]
   else [])
  ++ (if r.h3 then
    [⟨"Breakthrough Threshold", "2021-2024",
      "Rapid capability jumps, agentic systems, reasoning chains, and alignment concerns."⟩]
   else [])

/-- The deterministic pivot phase anchored at the invocation year. -/
def pivotPhase (currentYear : Nat) : Phase :=
  ⟨"Pivot Year", toString currentYear,
   "Current state: possible hidden ASI, stealth R&D, or final precursor leap."⟩

/-- The future phases produced by the drawn emergence branch. -/
def futurePhases (currentYear : Nat) (r : TimelineRand) : List Phase :=
  match r.emergence with
  | Emergence.already =>
      [⟨"Hidden Emergence", mkYears (currentYear - r.rAlready0) currentYear,
        "ASI already exists — covert, sandboxed, or misclassified. Detection lag begins."⟩,
       ⟨"Stealth Expansion", mkYears (currentYear + 1) (currentYear + r.rAlready1),
        "Gradual influence growth, infrastructure capture, or alignment drift."⟩]
  | Emergence.near =>
      [⟨"Imminent Breakthrough", mkYears (currentYear + 1) (currentYear + r.rNear),
        "Final capability threshold crossed. Rapid self-improvement possible."⟩]
  | Emergence.medium =>
      [⟨"Mid-Term Takeoff", mkYears (currentYear + 1) (currentYear + r.rMedium),
        "Sustained exponential progress. Societal integration begins."⟩]
  | Emergence.far =>
      [⟨"Long Horizon", mkYears (currentYear + 1) (currentYear + r.rFar),
        "Slow, stable climb. Multiple actors, governance attempts."⟩]
  | Emergence.never =>
      [⟨"Stagnation or Containment", toString (currentYear + 1) ++ "-2100",
        "ASI fails to emerge due to limits, alignment, or policy."⟩]

/-- The terminal phase the source appends when no future year range reaches 2100. -/
def longTermEquilibrium : Phase :=
  ⟨"Long-Term Equilibrium", "2100+",
   "Post-ASI world state: utopia, dystopia, absorption, or extinction."⟩

/-- The future list after the conditional equilibrium append: the source
appends longTermEquilibrium unless some future years string contains 2100. -/
def futureWithEquilibrium (currentYear : Nat) (r : TimelineRand) : List Phase :=
  if (futurePhases currentYear r).any (fun p => strContains "2100" p.years) then
    futurePhases currentYear r
  else futurePhases currentYear r ++ [longTermEquilibrium]

/-- _dynamic_timeline: included historical phases, then the pivot, then the
future phases (with the conditional equilibrium append). -/
def dynamicTimeline (currentYear : Nat) (r : TimelineRand) : List Phase :=
  historicalPhases r ++ pivotPhase currentYear :: futureWithEquilibrium currentYear r

/-! ### Multi-model client (single_asi_ollama_client.py) -/

/-- The model selection strategy enum. -/
inductive ModelStrategy
  | priority | random | round_robin
  deriving DecidableEq

/-- One configured model descriptor. -/
structure ModelConfig where
  name : String
  timeout : Nat
  max_retries : Nat
  deriving DecidableEq

/-- The configured model list (order matters for the priority strategy). -/
def AVAILABLE_MODELS : List ModelConfig :=
  [⟨"llama3", 300, 1⟩,
   ⟨"llama3:8b", 300, 1⟩,
   ⟨"mistral:7b", 300, 1⟩,
   ⟨"phi3:medium", 300, 1⟩,
   ⟨"gemma2:9b", 300, 1⟩]

/-- The outcome of one subprocess invocation of the external generator:
a completed process with exit status and captured streams, a timeout, a
missing executable, or any other raised exception. -/
inductive ProcResult
  | completed (returncode : Int) (stdout : String) (stderr : String)
  | timedOut
  | notFound
  | exn (msg : String)
  deriving DecidableEq

/-- _run_model: classify one invocation outcome into
(success, narrative, error). Non-zero exit, timeout, missing executable and
any other exception give (false, empty, error); a completed call with
stripped output under 100 characters is likewise a failure. -/
def runModel (model : ModelConfig) (pr : ProcResult) : Bool × String × Option String :=
  match pr with
  | ProcResult.completed rc out err =>
      if rc != 0 then
        (false, "",
         some (model.name ++ " failed (code " ++ toString rc ++ "): " ++ pyStrip err))
      else
        let narrative := pyStrip out
        if narrative.length < 100 then
          (false, "",
           some (model.name ++ ": Output too short (" ++ toString narrative.length ++ " chars)"))
        else (true, narrative, none)
  | ProcResult.notFound => (false, "", some "Ollama not found in PATH")
  | ProcResult.timedOut =>
      (false, "", some (model.name ++ ": Timed out after " ++ toString model.timeout ++ "s"))
  | ProcResult.exn e => (false, "", some (model.name ++ ": " ++ e))

/-- The raw candidate list generate_narrative builds before deduplication.
The preferred model, when found in AVAILABLE_MODELS, seeds the list; the
priority branch extends that seed, while the random branch overwrites the
whole list with the permutation random.sample returned and the round_robin
branch overwrites it with the rotation at the process-wide cursor (the
cursor is passed in here, as is the drawn permutation). -/
def candidateList (strategy : ModelStrategy) (preferred_model : Option String)
    (randPerm : List ModelConfig) (rrIndex : Nat) : List ModelConfig :=
  let base : List ModelConfig :=
    match preferred_model with
    | none => []
    | some p =>
        match AVAILABLE_MODELS.find? (fun m => m.name == p) with
        | some config => [config]
        | none => []
  match strategy with
  | ModelStrategy.priority => base ++ AVAILABLE_MODELS
  | ModelStrategy.random => randPerm
  | ModelStrategy.round_robin => AVAILABLE_MODELS.drop rrIndex ++ AVAILABLE_MODELS.take rrIndex

/-- The seen-set deduplication pass, keeping an entry only when its name was
not seen before. -/
def dedupeAux (seen : List String) : List ModelConfig → List ModelConfig
  | [] => []
  | m :: rest =>
      if m.name ∈ seen then dedupeAux seen rest
      else m :: dedupeAux (m.name :: seen) rest

/-- Deduplication by name with an initially empty seen set. -/
def dedupe (ms : List ModelConfig) : List ModelConfig := dedupeAux [] ms

/-- The candidate list generate_narrative actually attempts. -/
def modelsToTry (strategy : ModelStrategy) (preferred_model : Option String)
    (randPerm : List ModelConfig) (rrIndex : Nat) : List ModelConfig :=
  dedupe (candidateList strategy preferred_model randPerm rrIndex)

/-- The per-model retry loop: run up to the remaining count of attempts,
returning the first successful narrative. The outcome table is indexed by
model name and attempt index. -/
def tryAttempts (model : ModelConfig) (oc : String → Nat → ProcResult) :
    Nat → Nat → Option String
  | 0, _ => none
  | k + 1, idx =>
      let r := runModel model (oc model.name idx)
      if r.1 then some r.2.1 else tryAttempts model oc k (idx + 1)

/-- The fallback loop over the candidate list: first model with a successful
attempt wins; an exhausted list reports the final error. -/
def tryModels (oc : String → Nat → ProcResult) :
    List ModelConfig → Bool × Option String × Option String × Option String
  | [] => (false, none, none, some "All models failed")
  | m :: rest =>
      match tryAttempts m oc m.max_retries 0 with
      | some narrative => (true, some narrative, some m.name, none)
      | none => tryModels oc rest

/-- generate_narrative: build the candidate list, bail out when it is empty,
otherwise walk it with per-model retries. Prompt construction does not
branch the control flow and is elided. -/
def generate_narrative (strategy : ModelStrategy) (preferred_model : Option String)
    (randPerm : List ModelConfig) (rrIndex : Nat) (oc : String → Nat → ProcResult) :
    Bool × Option String × Option String × Option String :=
  let models := modelsToTry strategy preferred_model randPerm rrIndex
  if models.isEmpty then (false, none, none, some "No models available")
  else tryModels oc models

/-! ### Orchestrator (generate_scenario, lines 181-305) and persistence -/

/-- The assembled scenario record, restricted to the components the control
flow produces or inspects; the fixed-shape metadata and assessment blocks
never branch the control flow and are carried by the identity and
timestamp fields. -/
structure Record where
  id : String
  title : String
  created : String
  params : Params
  narrative : String
  phases : List Phase
  deriving DecidableEq

/-- Observable events of one generate_scenario run: a parameter draw for an
attempt, and an issued persistence call. -/
inductive Ev
  | sampled (attempt : Nat)
  | saveCall
  deriving DecidableEq

/-- The collaborators of generate_scenario, passed in explicitly: the
parameter sampler (fresh per attempt index), the narrative backend (which
may raise), the timeline synthesizer, uuid and clock, the schema validator
verdict, and the verdict of the validation inside save_scenario together
with a possible raised database error. -/
structure GenEnv where
  sampleP : Nat → Params
  genNarr : Nat → Params → Except String String
  timelineAt : Nat → List Phase
  uuidAt : Nat → String
  titleOf : Params → String
  now : String
  schemaOk : Record → Bool
  dbValid : Record → Bool
  dbRaise : Record → Option String

/-- The outcome of one generate_scenario run: the returned value, the
database rows after the run, the printed messages, and the event trace. -/
structure GenResult where
  result : Option Record
  db : List Record
  log : List String
  events : List Ev
  deriving DecidableEq

/-- save_scenario: validate first and return false (writing nothing) when
validation rejects; otherwise perform the insert (which may raise) and
return true. -/
def saveScenario (validOk : Bool) (dbErr : Option String) (db : List Record) (r : Record) :
    Except String (Bool × List Record) :=
  if validOk then
    match dbErr with
    | some e => Except.error e
    | none => Except.ok (true, db ++ [r])
  else Except.ok (false, db)

/-- The record generate_scenario assembles on a given attempt. -/
def assembleRecord (env : GenEnv) (attempt : Nat) (narrative : String)
    (phases : List Phase) : Record :=
  ⟨env.uuidAt attempt, env.titleOf (env.sampleP attempt), env.now,
   env.sampleP attempt, narrative, phases⟩

/-- The printed message of a caught narrative-backend exception. -/
def llmErrorMsg (attempt : Nat) (e : String) : String :=
  "[ERROR] LLM failed (attempt " ++ toString attempt ++ "): " ++ e

/-- The printed message of a consistency retry. -/
def retryMsg (attempt : Nat) : String :=
  "[RETRY] Inconsistent narrative (attempt " ++ toString attempt ++ ")"

/-- The printed message of a successful save. -/
def savedMsg (attempt : Nat) : String :=
  "Scenario saved. (Attempt " ++ toString attempt ++ ")"

/-- The retry loop of generate_scenario. The fuel counts the remaining
iterations including the current one, so fuel 0 is loop exhaustion and on
fuel 1 the current attempt is the last (attempt == max_retries). Each
iteration draws a fresh parameter sample for its own attempt index, then:
a raised narrative error retries (or returns none on the last attempt); an
inconsistent narrative retries likewise; a schema rejection aborts at once
with none; otherwise save_scenario is called, a raised database error
aborts with none, and any non-raising save — its returned boolean ignored —
logs the saved message and returns the record. -/
def genLoop (env : GenEnv) : Nat → Nat → List Record → List String → List Ev → GenResult
  | 0, _, db, log, evs => ⟨none, db, log, evs⟩
  | fuel + 1, attempt, db, log, evs =>
      let raw := env.sampleP attempt
      let evs1 := evs ++ [Ev.sampled attempt]
      match env.genNarr attempt raw with
      | Except.error e =>
          let log1 := log ++ [llmErrorMsg attempt e]
          if fuel == 0 then ⟨none, db, log1, evs1⟩
          else genLoop env fuel (attempt + 1) db log1 evs1
      | Except.ok narrative =>
          let phases := env.timelineAt attempt
          let cres := runChecker raw narrative
          if cres.1 then
            let scenario := assembleRecord env attempt narrative phases
            if env.schemaOk scenario then
              match saveScenario (env.dbValid scenario) (env.dbRaise scenario) db scenario with
              | Except.error e =>
                  ⟨none, db, log ++ ["[ERROR] DB save failed: " ++ e], evs1 ++ [Ev.saveCall]⟩
              | Except.ok (_flag, db2) =>
                  ⟨some scenario, db2, log ++ [savedMsg attempt], evs1 ++ [Ev.saveCall]⟩
            else ⟨none, db, log ++ ["[FATAL] Schema failed"], evs1⟩
          else
            let log1 := log ++ [retryMsg attempt]
            if fuel == 0 then ⟨none, db, log1 ++ ["[FINAL FAILURE] Max retries exceeded."], evs1⟩
            else genLoop env fuel (attempt + 1) db log1 evs1

/-- generate_scenario: the retry loop started at attempt 1 with max_retries
iterations of fuel, an empty log and an empty event trace. -/
def generate_scenario (env : GenEnv) (max_retries : Nat) (db : List Record) : GenResult :=
  genLoop env max_retries 1 db [] []

/-! ### Concrete stub environments used by counterexamples and witnesses -/

/-- A parameter set that trivially satisfies every consistency rule. -/
def okParams : Params := ⟨"corporate", "internal", mkRat 1 2⟩

/-- A stub environment whose schema validator always rejects. -/
def envSchemaReject : GenEnv :=
  ⟨fun _ => okParams, fun _ _ => Except.ok "daybreak", fun _ => [], fun i => toString i,
   fun _ => "T", "2026-10-12", fun _ => false, fun _ => true, fun _ => none⟩

/-- A stub environment whose narrative backend always raises. -/
def envExhaust : GenEnv :=
  { envSchemaReject with genNarr := fun _ _ => Except.error "TypeError" }

/-- A stub environment whose schema validator accepts but whose
save_scenario-internal validation rejects (save returns false, no raise). -/
def envDbReject : GenEnv :=
  { envSchemaReject with schemaOk := fun _ => true, dbValid := fun _ => false }

/-- The concrete timeline draw used by the claim C3 counterexample and witness. -/
def c3rand : TimelineRand := ⟨false, false, false, Emergence.already, 0, 2, 1, 6, 21⟩

/-- The concrete narrative text used by the claim C9 witness. -/
def c9text : String :=
  "The regime ordered a Government Audit while THE SYSTEM ACTED AUTONOMOUSLY."

/-! ### Substring lemmas -/

theorem prefixMatch_iff (a : List Char) : ∀ b, prefixMatch a b = true ↔ ∃ t, b = a ++ t := by
  induction a with
  | nil =>
      intro b
      simp [prefixMatch]
  | cons x xs ih =>
      intro b
      cases b with
      | nil =>
          simp [prefixMatch]
      | cons y ys =>
          simp only [prefixMatch, Bool.and_eq_true, beq_iff_eq, ih ys, List.cons_append,
            List.cons.injEq]
          constructor
          · rintro ⟨hxy, t, ht⟩
            exact ⟨t, hxy.symm, ht⟩
          · rintro ⟨t, hyx, ht⟩
            exact ⟨hyx.symm, t, ht⟩

theorem hasSub_iff (a : List Char) : ∀ b, hasSub a b = true ↔ ∃ l r, b = l ++ a ++ r := by
  intro b
  induction b with
  | nil =>
      simp only [hasSub, prefixMatch_iff]
      constructor
      · rintro ⟨t, ht⟩
        exact ⟨[], t, ht⟩
      · rintro ⟨l, r, h⟩
        rcases List.append_eq_nil.1 h.symm with ⟨h1, h2⟩
        rcases List.append_eq_nil.1 h1 with ⟨_, h3⟩
        exact ⟨r, by simp [h3, h2]⟩
  | cons y ys ih =>
      simp only [hasSub, Bool.or_eq_true, prefixMatch_iff, ih]
      constructor
      · rintro (⟨t, ht⟩ | ⟨l, r, h⟩)
        · exact ⟨[], t, by simp [ht]⟩
        · exact ⟨y :: l, r, by simp [h]⟩
      · rintro ⟨l, r, h⟩
        cases l with
        | nil => exact Or.inl ⟨r, by simpa using h⟩
        | cons z l2 =>
            simp only [List.cons_append, List.cons.injEq] at h
            exact Or.inr ⟨l2, r, h.2⟩

theorem hasSub_trans {a b c : List Char} (hab : hasSub a b = true)
    (hbc : hasSub b c = true) : hasSub a c = true := by
  rcases (hasSub_iff a b).1 hab with ⟨l1, r1, h1⟩
  rcases (hasSub_iff b c).1 hbc with ⟨l2, r2, h2⟩
  refine (hasSub_iff a c).2 ⟨l2 ++ l1, r1 ++ r2, ?_⟩
  subst h1
  rw [h2]
  simp [List.append_assoc]

theorem strContains_trans {a b t : String} (hab : strContains a b = true)
    (hbt : strContains b t = true) : strContains a t = true :=
  hasSub_trans hab hbt

/-! ### Claim C7 -/

/-- Claim C7: run_all evaluates all three rule checks without short-circuiting
on the first failure: the overall verdict is the conjunction of the three
check verdicts, and the failure list holds exactly the message of every
violated rule, in rule order (origin, oversight, agency). -/
theorem c7_run_all_no_short_circuit (p : Params) (text : String) :
    run_all p text =
      ((check_origin p text).1 && (check_oversight p text).1 && (check_agency p text).1,
       (if (check_origin p text).1 then [] else [(check_origin p text).2])
         ++ (if (check_oversight p text).1 then [] else [(check_oversight p text).2])
         ++ (if (check_agency p text).1 then [] else [(check_agency p text).2])) := by
  rcases h1 : check_origin p text with ⟨b1, m1⟩
  rcases h2 : check_oversight p text with ⟨b2, m2⟩
  rcases h3 : check_agency p text with ⟨b3, m3⟩
  cases b1 <;> cases b2 <;> cases b3 <;> simp [run_all, h1, h2, h3]

/-! ### Claim C9 -/

/-- Claim C9: with oversight type none and a text whose lowered form contains
the phrase government audit, check_oversight fails with a non-empty reason;
with agency level 0.1 and a text whose lowered form contains the phrase
the system acted autonomously, check_agency fails. Lowering embodies the
case-insensitive matching of the checker. -/
theorem c9_oversight_and_agency_rules :
    (∀ (p : Params) (text : String), p.oversight_type = "none" →
      strContains "government audit" (lowerText text) = true →
      (check_oversight p (lowerText text)).1 = false ∧
      (check_oversight p (lowerText text)).2 ≠ "") ∧
    (∀ (p : Params) (text : String), p.agency_level = mkRat 1 10 →
      strContains "the system acted autonomously" (lowerText text) = true →
      (check_agency p (lowerText text)).1 = false) := by
  constructor
  · intro p text hp hsub
    have haud : strContains "audit" (lowerText text) = true :=
      strContains_trans (by decide) hsub
    constructor
    · simp [check_oversight, hp, containsAny, haud]
    · simp only [check_oversight, hp]
      simp [containsAny, haud]
  · intro p text hp hsub
    have haut : strContains "autonomous" (lowerText text) = true :=
      strContains_trans (by decide) hsub
    have hlt : p.agency_level < mkRat 3 10 := by
      rw [hp]; decide
    simp [check_agency, hlt, containsAny, haut]

/-- Claim C9 witness at a concrete parameter set and narrative. -/
theorem c9_witness :
    ((check_oversight ⟨"corporate", "none", mkRat 1 10⟩ (lowerText c9text)).1 = false ∧
     (check_oversight ⟨"corporate", "none", mkRat 1 10⟩ (lowerText c9text)).2 ≠ "") ∧
    (check_agency ⟨"corporate", "none", mkRat 1 10⟩ (lowerText c9text)).1 = false :=
  ⟨c9_oversight_and_agency_rules.1 ⟨"corporate", "none", mkRat 1 10⟩ c9text rfl (by decide),
   c9_oversight_and_agency_rules.2 ⟨"corporate", "none", mkRat 1 10⟩ c9text rfl (by decide)⟩

/-! ### Timeline lemmas -/

theorem countPivot_historical (r : TimelineRand) :
    (historicalPhases r).countP (fun p => p.phase == "Pivot Year") = 0 := by
  rcases r with ⟨h1, h2, h3, em, a0, a1, rn, rm, rf⟩
  cases h1 <;> cases h2 <;> cases h3 <;> rfl

theorem no2100_in_already_years (a0 a1 : Nat) (h0 : a0 ≤ 3) (h1 : 2 ≤ a1) (h2 : a1 ≤ 10) :
    (strContains "2100" (mkYears (2026 - a0) 2026) ||
     (strContains "2100" (mkYears (2026 + 1) (2026 + a1)) || false)) = false := by
  interval_cases a0 <;> interval_cases a1 <;> decide

theorem countPivot_future (cy : Nat) (r : TimelineRand) :
    (futureWithEquilibrium cy r).countP (fun p => p.phase == "Pivot Year") = 0 := by
  rcases r with ⟨h1, h2, h3, em, a0, a1, rn, rm, rf⟩
  cases em <;> (unfold futureWithEquilibrium; split <;> rfl)

/-! ### Claim C4 -/

/-- Claim C4: for every invocation year and every random draw, the phase
sequence is non-empty and holds exactly one phase named Pivot Year, and the
pivot phase it holds carries the invocation year as its years string. -/
theorem c4_pivot_invariant (currentYear : Nat) (r : TimelineRand) :
    dynamicTimeline currentYear r ≠ [] ∧
    (dynamicTimeline currentYear r).countP (fun p => p.phase == "Pivot Year") = 1 ∧
    pivotPhase currentYear ∈ dynamicTimeline currentYear r ∧
    (pivotPhase currentYear).years = toString currentYear := by
  refine ⟨?_, ?_, ?_, rfl⟩
  · simp [dynamicTimeline]
  · rw [dynamicTimeline, List.countP_append, countPivot_historical, List.countP_cons,
      countPivot_future]
    rfl
  · show pivotPhase currentYear ∈
      historicalPhases r ++ pivotPhase currentYear :: futureWithEquilibrium currentYear r
    exact List.mem_append_right _ (List.mem_cons_self _ _)

/-! ### Claim C3 -/

/-- Claim C3 counterexample: at invocation year 2026, a draw with the
emergence branch equal to already yields three phases after the pivot (the
two already-branch phases and the appended Long-Term Equilibrium phase),
not exactly two as claimed. -/
theorem c3_counterexample :
    c3rand.emergence = Emergence.already ∧
    dynamicTimeline 2026 c3rand = pivotPhase 2026 :: futureWithEquilibrium 2026 c3rand ∧
    (futureWithEquilibrium 2026 c3rand).length = 3 ∧
    ¬ (futureWithEquilibrium 2026 c3rand).length = 2 := by
  refine ⟨rfl, rfl, rfl, by decide⟩

/-- Claim C3 amended: at the invocation year 2026, whenever the emergence
draw is already (with the offsets randint can return, 0 to 3 and 2 to 10),
the already branch appends exactly two phases, the first of them a year
range ending at the invocation year, and the terminal equilibrium phase is
then appended as well because no year string reaches 2100 — so exactly
three phases follow the pivot. -/
theorem c3_already_branch_amended (r : TimelineRand)
    (hem : r.emergence = Emergence.already)
    (h0 : r.rAlready0 ≤ 3) (h1 : 2 ≤ r.rAlready1) (h2 : r.rAlready1 ≤ 10) :
    (futurePhases 2026 r).length = 2 ∧
    (∃ a b, (futurePhases 2026 r).head?.map (fun p => p.years) = some (mkYears a b) ∧
      b ≤ 2026) ∧
    (futureWithEquilibrium 2026 r).length = 3 ∧
    dynamicTimeline 2026 r =
      historicalPhases r ++ pivotPhase 2026 :: futureWithEquilibrium 2026 r := by
  rcases r with ⟨hh1, hh2, hh3, em, a0, a1, rn, rm, rf⟩
  simp only [TimelineRand.emergence] at hem
  subst hem
  simp only [TimelineRand.rAlready0] at h0
  simp only [TimelineRand.rAlready1] at h1 h2
  refine ⟨rfl, ⟨2026 - a0, 2026, rfl, le_refl 2026⟩, ?_, rfl⟩
  unfold futureWithEquilibrium
  have hany : (futurePhases 2026 ⟨hh1, hh2, hh3, Emergence.already, a0, a1, rn, rm, rf⟩).any
      (fun p => strContains "2100" p.years) = false :=
    no2100_in_already_years a0 a1 h0 h1 h2
  rw [hany]
  rfl

/-- Claim C3 amended witness at the concrete draw of the counterexample. -/
theorem c3_already_branch_witness :
    (futurePhases 2026 c3rand).length = 2 ∧
    (∃ a b, (futurePhases 2026 c3rand).head?.map (fun p => p.years) = some (mkYears a b) ∧
      b ≤ 2026) ∧
    (futureWithEquilibrium 2026 c3rand).length = 3 ∧
    dynamicTimeline 2026 c3rand =
      historicalPhases c3rand ++ pivotPhase 2026 :: futureWithEquilibrium 2026 c3rand :=
  c3_already_branch_amended c3rand rfl (by decide) (by decide) (by decide)

/-! ### Deduplication lemmas -/

theorem dedupeAux_names (ms : List ModelConfig) : ∀ seen : List String,
    ((dedupeAux seen ms).map (fun m => m.name)).Nodup ∧
    ∀ n ∈ (dedupeAux seen ms).map (fun m => m.name), n ∉ seen := by
  induction ms with
  | nil =>
      intro seen
      exact ⟨List.nodup_nil, by simp [dedupeAux]⟩
  | cons a rest ih =>
      intro seen
      by_cases ha : a.name ∈ seen
      · simpa [dedupeAux, ha] using ih seen
      · obtain ⟨hnd, hout⟩ := ih (a.name :: seen)
        refine ⟨?_, ?_⟩
        · simp only [dedupeAux, ha, if_false, List.map_cons, List.nodup_cons]
          refine ⟨fun hmem => ?_, hnd⟩
          exact hout a.name hmem (List.mem_cons_self _ _)
        · intro n hn
          simp only [dedupeAux, ha, if_false, List.map_cons, List.mem_cons] at hn
          rcases hn with rfl | hn
          · exact ha
          · intro hmem
            exact hout n hn (List.mem_cons_of_mem _ hmem)

theorem dedupeAux_first (ms : List ModelConfig) : ∀ (seen : List String) (m : ModelConfig),
    m ∈ dedupeAux seen ms →
    m.name ∉ seen ∧ ms.find? (fun x => x.name == m.name) = some m := by
  induction ms with
  | nil =>
      intro seen m h
      simp [dedupeAux] at h
  | cons a rest ih =>
      intro seen m h
      by_cases ha : a.name ∈ seen
      · simp only [dedupeAux, ha, if_true] at h
        obtain ⟨hns, hfind⟩ := ih seen m h
        have hne : (a.name == m.name) = false := by
          simp only [beq_eq_false_iff_ne, ne_eq]
          intro hEq
          exact hns (hEq ▸ ha)
        refine ⟨hns, ?_⟩
        rw [List.find?_cons, hne]
        exact hfind
      · simp only [dedupeAux, ha, if_false, List.mem_cons] at h
        rcases h with rfl | h
        · refine ⟨ha, ?_⟩
          rw [List.find?_cons, beq_self_eq_true]
        · obtain ⟨hns, hfind⟩ := ih (a.name :: seen) m h
          have hnam : a.name ≠ m.name := fun hEq => hns (hEq ▸ List.mem_cons_self _ _)
          have hne : (a.name == m.name) = false := by
            simpa only [beq_eq_false_iff_ne, ne_eq] using hnam
          refine ⟨fun hmem => hns (List.mem_cons_of_mem _ hmem), ?_⟩
          rw [List.find?_cons, hne]
          exact hfind

theorem dedupeAux_mem_names (ms : List ModelConfig) : ∀ (seen : List String) (n : String),
    n ∈ (dedupeAux seen ms).map (fun m => m.name) ↔
    n ∈ ms.map (fun m => m.name) ∧ n ∉ seen := by
  induction ms with
  | nil =>
      intro seen n
      simp [dedupeAux]
  | cons a rest ih =>
      intro seen n
      by_cases ha : a.name ∈ seen
      · simp only [dedupeAux, ha, if_true, ih seen n, List.map_cons, List.mem_cons]
        constructor
        · rintro ⟨hmem, hout⟩
          exact ⟨Or.inr hmem, hout⟩
        · rintro ⟨hmem | hmem, hout⟩
          · exact absurd (hmem ▸ ha) hout
          · exact ⟨hmem, hout⟩
      · simp only [dedupeAux, ha, if_false, List.map_cons, List.mem_cons,
          ih (a.name :: seen) n]
        constructor
        · rintro (rfl | ⟨hmem, hout⟩)
          · exact ⟨Or.inl rfl, ha⟩
          · simp only [List.mem_cons, not_or] at hout
            exact ⟨Or.inr hmem, hout.2⟩
        · rintro ⟨hmem | hmem, hout⟩
          · exact Or.inl hmem
          · by_cases hn : n = a.name
            · exact Or.inl hn
            · refine Or.inr ⟨hmem, ?_⟩
              simp only [List.mem_cons, not_or]
              exact ⟨hn, hout⟩

/-! ### Claim C8 -/

/-- Claim C8: the candidate list generate_narrative actually attempts carries
pairwise distinct model names, each kept entry is the first occurrence of
its name in the raw candidate list, and deduplication drops no name. -/
theorem c8_dedup_first_occurrence (strategy : ModelStrategy) (pref : Option String)
    (perm : List ModelConfig) (rr : Nat) :
    ((modelsToTry strategy pref perm rr).map (fun m => m.name)).Nodup ∧
    (∀ m ∈ modelsToTry strategy pref perm rr,
      (candidateList strategy pref perm rr).find? (fun x => x.name == m.name) = some m) ∧
    (∀ n, n ∈ (candidateList strategy pref perm rr).map (fun m => m.name) ↔
      n ∈ (modelsToTry strategy pref perm rr).map (fun m => m.name)) := by
  refine ⟨(dedupeAux_names (candidateList strategy pref perm rr) []).1, ?_, ?_⟩
  · intro m hm
    exact (dedupeAux_first (candidateList strategy pref perm rr) [] m hm).2
  · intro n
    rw [show modelsToTry strategy pref perm rr
        = dedupeAux [] (candidateList strategy pref perm rr) from rfl,
      dedupeAux_mem_names (candidateList strategy pref perm rr) [] n]
    simp

/-- Claim C8 witness: with the preferred model llama3 overlapping the
priority list, the attempted list has pairwise distinct names and the kept
llama3 entry is the first occurrence in the raw candidate list. -/
theorem c8_witness :
    ((modelsToTry ModelStrategy.priority (some "llama3") [] 0).map
      (fun m => m.name)).Nodup ∧
    (candidateList ModelStrategy.priority (some "llama3") [] 0).find?
      (fun x => x.name == (⟨"llama3", 300, 1⟩ : ModelConfig).name)
      = some ⟨"llama3", 300, 1⟩ :=
  ⟨(c8_dedup_first_occurrence ModelStrategy.priority (some "llama3") [] 0).1,
   (c8_dedup_first_occurrence ModelStrategy.priority (some "llama3") [] 0).2.1
     ⟨"llama3", 300, 1⟩ (by decide)⟩

/-! ### Claim C1 -/

/-- Claim C1 evaluated at a failing input: mistral:7b is present in
AVAILABLE_MODELS and given as the preferred model, yet under the random
strategy (with random.sample returning the configured order) and under the
round_robin strategy (cursor 0) the first attempted model is llama3, not
the preferred model, because both branches overwrite the seeded list; only
the priority strategy attempts the preferred model first. -/
theorem c1_preferred_not_first_eval :
    (AVAILABLE_MODELS.map (fun m => m.name)).contains "mistral:7b" = true ∧
    (modelsToTry ModelStrategy.random (some "mistral:7b") AVAILABLE_MODELS 0).head?.map
      (fun m => m.name) = some "llama3" ∧
    (modelsToTry ModelStrategy.round_robin (some "mistral:7b") AVAILABLE_MODELS 0).head?.map
      (fun m => m.name) = some "llama3" ∧
    (modelsToTry ModelStrategy.priority (some "mistral:7b") AVAILABLE_MODELS 0).head?.map
      (fun m => m.name) = some "mistral:7b" ∧
    ("llama3" : String) ≠ "mistral:7b" := by
  decide

/-! ### Claim C6 -/

theorem tryAttempts_eq_none (m : ModelConfig) (oc : String → Nat → ProcResult)
    (h : ∀ i, (runModel m (oc m.name i)).1 = false) :
    ∀ k idx, tryAttempts m oc k idx = none := by
  intro k
  induction k with
  | zero => intro idx; rfl
  | succ n ih =>
      intro idx
      simp [tryAttempts, h idx, ih]

theorem tryModels_all_fail (oc : String → Nat → ProcResult)
    (h : ∀ (m : ModelConfig) (i : Nat), (runModel m (oc m.name i)).1 = false) :
    ∀ ms, tryModels oc ms = (false, none, none, some "All models failed") := by
  intro ms
  induction ms with
  | nil => rfl
  | cons m rest ih =>
      simp [tryModels, tryAttempts_eq_none m oc (fun i => h m i), ih]

/-- Claim C6: a non-zero exit status, a timeout, a missing executable, and a
successful exit whose stripped output is under 100 characters are each a
recoverable per-model failure of _run_model, and when every attempt on
every candidate model fails, generate_narrative returns the tuple
(false, none, none, All models failed) instead of raising. -/
theorem c6_failure_modes_and_exhaustion :
    (∀ (m : ModelConfig) (rc : Int) (out err : String), rc ≠ 0 →
      (runModel m (ProcResult.completed rc out err)).1 = false) ∧
    (∀ m : ModelConfig, (runModel m ProcResult.timedOut).1 = false) ∧
    (∀ m : ModelConfig, (runModel m ProcResult.notFound).1 = false) ∧
    (∀ (m : ModelConfig) (out err : String), (pyStrip out).length < 100 →
      (runModel m (ProcResult.completed 0 out err)).1 = false) ∧
    (∀ (strategy : ModelStrategy) (pref : Option String) (perm : List ModelConfig)
      (rr : Nat) (oc : String → Nat → ProcResult),
      (∀ (m : ModelConfig) (i : Nat), (runModel m (oc m.name i)).1 = false) →
      modelsToTry strategy pref perm rr ≠ [] →
      generate_narrative strategy pref perm rr oc =
        (false, none, none, some "All models failed")) := by
  refine ⟨?_, fun m => rfl, fun m => rfl, ?_, ?_⟩
  · intro m rc out err hrc
    have hb : (rc != 0) = true := by
      simpa only [bne_iff_ne, ne_eq] using hrc
    simp [runModel, hb]
  · intro m out err hlen
    simp [runModel, hlen]
  · intro strategy pref perm rr oc hfail hne
    have hne2 : (modelsToTry strategy pref perm rr).isEmpty = false := by
      cases hmt : modelsToTry strategy pref perm rr with
      | nil => exact absurd hmt hne
      | cons a l => rfl
    simp [generate_narrative, hne2, tryModels_all_fail oc hfail]

/-- Claim C6 witness: a non-zero exit, a short completion, and a run in
which every model call times out, each evaluated concretely. -/
theorem c6_witness :
    (runModel ⟨"llama3", 300, 1⟩ (ProcResult.completed 1 "" "boom")).1 = false ∧
    (runModel ⟨"llama3", 300, 1⟩ (ProcResult.completed 0 "too short" "")).1 = false ∧
    generate_narrative ModelStrategy.priority none [] 0 (fun _ _ => ProcResult.timedOut) =
      (false, none, none, some "All models failed") :=
  ⟨c6_failure_modes_and_exhaustion.1 ⟨"llama3", 300, 1⟩ 1 "" "boom" (by decide),
   c6_failure_modes_and_exhaustion.2.2.2.1 ⟨"llama3", 300, 1⟩ "too short" "" (by decide),
   c6_failure_modes_and_exhaustion.2.2.2.2 ModelStrategy.priority none [] 0
     (fun _ _ => ProcResult.timedOut) (fun m i => rfl) (by decide)⟩

/-! ### Claim C5 -/

/-- Claim C5: when every narrative-generation attempt raises and max_retries
is 3, generate_scenario performs exactly three cycles, each drawing a fresh
parameter sample for its own attempt index, issues no persistence call, and
returns the absence signal none rather than raising. -/
theorem c5_exhaustion_three_cycles (env : GenEnv) (db : List Record)
    (h : ∀ (i : Nat) (p : Params), ∃ msg, env.genNarr i p = Except.error msg) :
    (generate_scenario env 3 db).result = none ∧
    (generate_scenario env 3 db).db = db ∧
    (generate_scenario env 3 db).events = [Ev.sampled 1, Ev.sampled 2, Ev.sampled 3] := by
  obtain ⟨m1, h1⟩ := h 1 (env.sampleP 1)
  obtain ⟨m2, h2⟩ := h 2 (env.sampleP 2)
  obtain ⟨m3, h3⟩ := h 3 (env.sampleP 3)
  have run : generate_scenario env 3 db =
      ⟨none, db, [llmErrorMsg 1 m1, llmErrorMsg 2 m2, llmErrorMsg 3 m3],
       [Ev.sampled 1, Ev.sampled 2, Ev.sampled 3]⟩ := by
    simp [generate_scenario, genLoop, h1, h2, h3]
  rw [run]
  exact ⟨rfl, rfl, rfl⟩

/-- Claim C5 witness: the concrete always-raising backend stub. -/
theorem c5_witness :
    (generate_scenario envExhaust 3 []).result = none ∧
    (generate_scenario envExhaust 3 []).db = [] ∧
    (generate_scenario envExhaust 3 []).events =
      [Ev.sampled 1, Ev.sampled 2, Ev.sampled 3] :=
  c5_exhaustion_three_cycles envExhaust [] (fun _ _ => ⟨"TypeError", rfl⟩)

/-! ### Claim C2 -/

/-- Claim C2 counterexample: with a schema stub that always rejects, the
value generate_scenario returns is none — the very same value returned when
every narrative attempt fails and all retries are consumed — so the claimed
returned validation-error signal is not distinct from the exhaustion
signal (the two runs differ only in their printed messages). -/
theorem c2_counterexample :
    (generate_scenario envSchemaReject 3 []).result = none ∧
    (generate_scenario envExhaust 3 []).result = none ∧
    (generate_scenario envSchemaReject 3 []).result =
      (generate_scenario envExhaust 3 []).result ∧
    (generate_scenario envSchemaReject 3 []).log = ["[FATAL] Schema failed"] ∧
    (generate_scenario envExhaust 3 []).log ≠ ["[FATAL] Schema failed"] := by
  refine ⟨rfl, by decide, by decide, by decide, by decide⟩

/-- Claim C2 amended: when schema validation rejects, generate_scenario
aborts on that very attempt — no further parameter resample and no
persistence call — and returns none, which is the same absence value the
exhaustion path returns; the validation failure is distinguished only by
the printed FATAL message, not by the returned value. -/
theorem c2_schema_reject_amended (env : GenEnv) (db : List Record) (t : String)
    (hs : ∀ r, env.schemaOk r = false)
    (hn : env.genNarr 1 (env.sampleP 1) = Except.ok t)
    (hc : (runChecker (env.sampleP 1) t).1 = true) :
    generate_scenario env 3 db = ⟨none, db, ["[FATAL] Schema failed"], [Ev.sampled 1]⟩ := by
  simp [generate_scenario, genLoop, hn, hc,
    hs (assembleRecord env 1 t (env.timelineAt 1))]

/-- Claim C2 amended witness: the concrete always-rejecting schema stub. -/
theorem c2_schema_reject_witness :
    generate_scenario envSchemaReject 3 [] =
      ⟨none, [], ["[FATAL] Schema failed"], [Ev.sampled 1]⟩ :=
  c2_schema_reject_amended envSchemaReject [] "daybreak" (fun r => rfl) rfl (by decide)

/-! ### Claim C10 -/

/-- Claim C10: save_scenario reports its internal validation failure by
returning false without raising and without writing any row, and
generate_scenario ignores that boolean: a save call that returns false
still logs the saved message and the assembled record is returned as a
success. -/
theorem c10_save_bool_ignored (env : GenEnv) (db : List Record) (t : String)
    (hv : ∀ r, env.dbValid r = false)
    (hs : ∀ r, env.schemaOk r = true)
    (hn : env.genNarr 1 (env.sampleP 1) = Except.ok t)
    (hc : (runChecker (env.sampleP 1) t).1 = true) :
    (∀ (e : Option String) (db2 : List Record) (r : Record),
      saveScenario false e db2 r = Except.ok (false, db2)) ∧
    generate_scenario env 3 db =
      ⟨some (assembleRecord env 1 t (env.timelineAt 1)), db,
       [savedMsg 1], [Ev.sampled 1, Ev.saveCall]⟩ := by
  refine ⟨fun e db2 r => rfl, ?_⟩
  simp [generate_scenario, genLoop, hn, hc,
    hs (assembleRecord env 1 t (env.timelineAt 1)),
    hv (assembleRecord env 1 t (env.timelineAt 1)), saveScenario]

/-- Claim C10 witness: the concrete stub whose save-internal validation
rejects; the run still returns the record, logs the saved message, and
writes no row. -/
theorem c10_witness :
    (∀ (e : Option String) (db2 : List Record) (r : Record),
      saveScenario false e db2 r = Except.ok (false, db2)) ∧
    generate_scenario envDbReject 3 [] =
      ⟨some (assembleRecord envDbReject 1 "daybreak" (envDbReject.timelineAt 1)), [],
       [savedMsg 1], [Ev.sampled 1, Ev.saveCall]⟩ :=
  c10_save_bool_ignored envDbReject [] "daybreak" (fun r => rfl) (fun r => rfl) rfl
    (by decide)

end Oasis
